import Mathlib

/-!
Shallow embedding of the core of the `ghl` CLI (files `src/ghl/client.py` and
`src/ghl/output.py`): the rate-limit-aware HTTP request layer and the generic
output renderer.  Python `None` and JSON `null` coincide (`json.loads` maps
`null` to `None`), so both are modelled by `Json.null`.  Machine floats that
appear in the rate-limit arithmetic are modelled by `ℚ`; header strings are
modelled by Lean strings together with explicit parsers for Python's
`int(...)` and `float(...)` conversions.
-/

namespace GHL

/-- A Python value as produced by `json.loads` (plus `None`/`bool`/`int`
which Python conflates with the JSON scalars).  Numbers are modelled as
integers, which covers every value the claims touch. -/
inductive Json where
  | null
  | bool (b : Bool)
  | num (n : Int)
  | str (s : String)
  | arr (xs : List Json)
  | obj (kvs : List (String × Json))

/-- Lookup in a Python dict, modelled as an association list in insertion
order (`dict.get` returning `None` on a missing key is `Option.getD .null`
at use sites). -/
def jlookup (kvs : List (String × Json)) (k : String) : Option Json :=
  match kvs with
  | [] => none
  | (k', v) :: rest => if k' = k then some v else jlookup rest k

/-- Python truthiness of a value (`bool(v)`): `None`, `False`, `0`, `""`,
`[]`, `{}` are falsy, everything else truthy. -/
def pyTruthy : Json → Bool
  | .null => false
  | .bool b => b
  | .num n => n != 0
  | .str s => s != ""
  | .arr xs => !xs.isEmpty
  | .obj kvs => !kvs.isEmpty

mutual
/-- Python `repr(v)` for the values of `Json`: strings get single quotes,
containers use `[x, y]` / `{'k': v}` notation with `repr` applied to the
elements. -/
def pyRepr : Json → String
  | .null => "None"
  | .bool b => if b then "True" else "False"
  | .num n => toString n
  | .str s => "'" ++ s ++ "'"
  | .arr xs => "[" ++ String.intercalate ", " (pyReprList xs) ++ "]"
  | .obj kvs => "\x7b" ++ String.intercalate ", " (pyReprPairs kvs) ++ "\x7d"

def pyReprList : List Json → List String
  | [] => []
  | x :: xs => pyRepr x :: pyReprList xs

def pyReprPairs : List (String × Json) → List String
  | [] => []
  | (k, v) :: kvs => ("'" ++ k ++ "': " ++ pyRepr v) :: pyReprPairs kvs
end

/-- Python `str(v)`: identical to `repr(v)` except that a top-level string
is returned verbatim. -/
def pyStr : Json → String
  | .str s => s
  | v => pyRepr v

/-- Minimal JSON string quoting used by `json.dumps` (escaping of the
backslash and the double quote; the claims never exercise other escapes). -/
def jsonQuote (s : String) : String :=
  "\"" ++ String.join (s.data.map fun c =>
    if c = '\\' then "\\\\" else if c = '"' then "\\\"" else String.singleton c) ++ "\""

mutual
/-- Compact `json.dumps(v)` with the default separators `", "` and `": "`,
honouring insertion order of dict keys (Python dicts preserve it). -/
def dumps : Json → String
  | .null => "null"
  | .bool b => if b then "true" else "false"
  | .num n => toString n
  | .str s => jsonQuote s
  | .arr xs => "[" ++ String.intercalate ", " (dumpsList xs) ++ "]"
  | .obj kvs => "\x7b" ++ String.intercalate ", " (dumpsPairs kvs) ++ "\x7d"

def dumpsList : List Json → List String
  | [] => []
  | x :: xs => dumps x :: dumpsList xs

def dumpsPairs : List (String × Json) → List String
  | [] => []
  | (k, v) :: kvs => (jsonQuote k ++ ": " ++ dumps v) :: dumpsPairs kvs
end

/-! Embedding of `output.py`: value formatting and dotted-path resolution -/

/-- The function `output.format_value`: display form of one scalar cell. -/
def format_value : Json → String
  | .null => "-"
  | .bool b => if b then "Yes" else "No"
  | .arr xs =>
      if xs.length = 0 then "-"
      else if xs.length ≤ 3 then String.intercalate ", " (xs.map pyStr)
      else toString xs.length ++ " items"
  | .obj kvs => dumps (.obj kvs)
  | v => pyStr v

/-- The dotted-path descent loop shared by `output_table`, `output_csv` and
`output_single`: walk the parts of `key.split(".")`; a missing key yields
`None` (`dict.get`), a non-dict intermediate sets the value to `None` and
breaks. -/
def resolvePath (row : Json) : List String → Json
  | [] => row
  | k :: rest =>
      match row with
      | .obj kvs => resolvePath ((jlookup kvs k).getD .null) rest
      | _ => .null

/-- Worker for `splitKey`: `acc` holds the characters of the current part
in reverse. -/
def splitKeyAux : List Char → List Char → List String
  | [], acc => [String.mk acc.reverse]
  | c :: cs, acc =>
      if c = '.' then String.mk acc.reverse :: splitKeyAux cs []
      else splitKeyAux cs (c :: acc)

/-- Splitting the column key on dots, as `key.split(".")` does (an empty
key gives `[""]`, adjacent dots give empty parts). -/
def splitKey (key : String) : List String := splitKeyAux key.data []

/-- One cell of `output_table` / `output_single`: resolve the dotted path,
then format. -/
def tableCell (row : Json) (key : String) : String :=
  format_value (resolvePath row (splitKey key))

/-- Python `value == "-"` for an arbitrary value: only a string equal to
`"-"` compares equal to the string literal. -/
def eqDash : Json → Bool
  | .str s => s == "-"
  | _ => false

/-- One cell of `output_csv`: `format_value(value) if value != "-" else ""`,
where `value` is the raw resolved value (the comparison happens before
formatting). -/
def csvCell (row : Json) (key : String) : String :=
  let value := resolvePath row (splitKey key)
  if eqDash value then "" else format_value value

/-- One full data row of `output_table`. -/
def tableRow (row : Json) (columns : List (String × String)) : List String :=
  columns.map fun c => tableCell row c.1

/-- One full data row of `output_csv`. -/
def csvRow (row : Json) (columns : List (String × String)) : List String :=
  columns.map fun c => csvCell row c.1

/-- One rendered line of `output_single` before label padding is applied:
the formatted value of the field. -/
def singleValue (data : Json) (key : String) : String :=
  format_value (resolvePath data (splitKey key))

/-! Embedding of `output_json` -/

/-- Indentation of `2 * level` spaces used by `json.dumps(..., indent=2)`. -/
def padTo (level : Nat) : String := String.join (List.replicate (2 * level) " ")

mutual
/-- Model of `json.dumps(data, indent=2)`: the indented serialization emitted by
`output_json`.  `level` is the current indentation depth. -/
def dumpsIndent : Nat → Json → String
  | _, .null => "null"
  | _, .bool b => if b then "true" else "false"
  | _, .num n => toString n
  | _, .str s => jsonQuote s
  | level, .arr xs =>
      match xs with
      | [] => "[]"
      | _ =>
          "[\n" ++ String.intercalate ",\n" (dumpsIndentList (level + 1) xs)
            ++ "\n" ++ padTo level ++ "]"
  | level, .obj kvs =>
      match kvs with
      | [] => "\x7b\x7d"
      | _ =>
          "\x7b\n" ++ String.intercalate ",\n" (dumpsIndentPairs (level + 1) kvs)
            ++ "\n" ++ padTo level ++ "\x7d"

def dumpsIndentList : Nat → List Json → List String
  | _, [] => []
  | level, x :: xs => (padTo level ++ dumpsIndent level x) :: dumpsIndentList level xs

def dumpsIndentPairs : Nat → List (String × Json) → List String
  | _, [] => []
  | level, (k, v) :: kvs =>
      (padTo level ++ jsonQuote k ++ ": " ++ dumpsIndent level v) :: dumpsIndentPairs level kvs
end

/-- The function `output_json(data)`: the text echoed for `format = "json"`. -/
def output_json (data : Json) : String := dumpsIndent 0 data

/-! Embedding of `client.py`: header parsing -/

/-- Response headers, keyed by the lower-case header name (httpx headers are
case-insensitive). -/
def Headers : Type := String → Option String

/-- Whitespace stripped by Python's `str.strip()` before numeric
conversion. -/
def isPySpace (c : Char) : Bool :=
  c = ' ' || c = '\t' || c = '\n' || c = '\r'

/-- Stripping whitespace from both ends of a character list. -/
def trimChars (cs : List Char) : List Char :=
  ((cs.dropWhile isPySpace).reverse.dropWhile isPySpace).reverse

/-- The numeric value of a digit run. -/
def digitsVal (cs : List Char) : Nat :=
  cs.foldl (fun acc c => acc * 10 + (c.toNat - 48)) 0

/-- Splitting off an optional single leading sign; returns whether the
sign was `-` and the rest. -/
def splitSign : List Char → Bool × List Char
  | '-' :: rest => (true, rest)
  | '+' :: rest => (false, rest)
  | cs => (false, cs)

/-- Python `int(s)` on a string: optional surrounding whitespace, an
optional sign, then a nonempty run of digits; anything else raises
`ValueError`, modelled by `none`. -/
def pyParseInt (s : String) : Option Int :=
  let t := splitSign (trimChars s.data)
  if !t.2.isEmpty && t.2.all Char.isDigit then
    some (if t.1 then -(digitsVal t.2 : Int) else (digitsVal t.2 : Int))
  else
    none

/-- Python `float(s)` on a string, restricted to the plain decimal forms
rate-limit headers carry: optional whitespace and sign, digits with an
optional fractional part.  The value is exact, modelled in `ℚ`; a malformed
string raises `ValueError`, modelled by `none`. -/
def pyParseFloat (s : String) : Option ℚ :=
  let t := splitSign (trimChars s.data)
  let intPart := t.2.takeWhile (fun c => c ≠ '.')
  let rest := t.2.dropWhile (fun c => c ≠ '.')
  let valid := match rest with
    | [] => !intPart.isEmpty && intPart.all Char.isDigit
    | _ :: fracPart =>
        (!intPart.isEmpty || !fracPart.isEmpty) &&
        intPart.all Char.isDigit && fracPart.all Char.isDigit
  if valid then
    let mag : ℚ := match rest with
      | [] => (digitsVal intPart : ℚ)
      | _ :: fracPart =>
          (digitsVal intPart : ℚ) + (digitsVal fracPart : ℚ) / ((10 : ℚ) ^ fracPart.length)
    some (if t.1 then -mag else mag)
  else
    none

/-- Model of `int(headers.get(name, default))`: the default is taken when the header
is absent; a present but malformed header raises, modelled by `.error ()`. -/
def parseIntHeader (h : Option String) (dflt : Int) : Except Unit Int :=
  match h with
  | none => .ok dflt
  | some s => match pyParseInt s with
      | some n => .ok n
      | none => .error ()

/-- Model of `float(headers.get(name, 0))`: absent gives `0.0`; a present but
malformed header raises, modelled by `.error ()`. -/
def parseFloatHeader (h : Option String) : Except Unit ℚ :=
  match h with
  | none => .ok 0
  | some s => match pyParseFloat s with
      | some q => .ok q
      | none => .error ()

/-- The pydantic model `RateLimitInfo` of `client.py`. -/
structure RateLimitInfo where
  limit : Int
  remaining : Int
  reset : Option ℚ
  interval_ms : Int

/-- Model of `RateLimitInfo.from_headers`: parse the four rate-limit headers with the
documented defaults; `float(...) or None` turns a zero reset into `none`.
Python's uncaught `ValueError` on any malformed header is the `.error ()`
branch. -/
def RateLimitInfo.from_headers (h : Headers) : Except Unit RateLimitInfo :=
  match parseIntHeader (h "x-ratelimit-limit") 100,
        parseIntHeader (h "x-ratelimit-remaining") 100,
        parseFloatHeader (h "x-ratelimit-reset"),
        parseIntHeader (h "x-ratelimit-interval-ms") 10000 with
  | .ok lim, .ok rem, .ok resetRaw, .ok interval =>
      .ok { limit := lim, remaining := rem,
            reset := if resetRaw = 0 then none else some resetRaw,
            interval_ms := interval }
  | _, _, _, _ => .error ()

/-! Embedding of `client.py`: responses, throttling and response handling -/

/-- An HTTP response as the client observes it: status code, headers, the
result of `response.json()` (`none` when decoding raises) and the raw
`response.text`. -/
structure Response where
  status : Int
  headers : Headers
  jsonBody : Option Json
  text : String

/-- The sleep performed by `_handle_rate_limit` for a response whose parsed
rate-limit info is `info`, in seconds (`0` means no sleep).  `now` is
`time.time()` at the moment of the check.  On 429 the wait is
`interval_ms/1000`, raised to `reset - now` when `reset` is truthy, plus a
0.1 s buffer; otherwise a flat 0.5 s when `remaining < 5`. -/
def sleepSeconds (status : Int) (info : RateLimitInfo) (now : ℚ) : ℚ :=
  if status = 429 then
    let wait : ℚ := (info.interval_ms : ℚ) / 1000
    let wait : ℚ := match info.reset with
      | some r => if r ≠ 0 then max wait (r - now) else wait
      | none => wait
    wait + 1 / 10
  else if info.remaining < 5 then
    1 / 2
  else
    0

/-- Model of `APIError`: status code plus extracted message.  The message is kept as
the raw Python value the code assigns (`body.get(...)` may produce a
non-string). -/
structure APIErr where
  statusCode : Int
  message : Json

/-- The fixed message raised for 429 responses. -/
def rateLimitedMsg : String := "Rate limited. Please wait and try again."

/-- The error-message extraction of `_handle_response` for a status ≥ 400
response: `body.get("message") or body.get("error") or str(body)` when the
body parses as a dict; when the body is absent, fails to parse, or parses to
a non-dict (so that `body.get` raises `AttributeError`), the `except` arm
gives `response.text or "HTTP <code>"`. -/
def extractMessage (resp : Response) : Json :=
  match resp.jsonBody with
  | some (.obj kvs) =>
      let m := (jlookup kvs "message").getD .null
      if pyTruthy m then m
      else
        let e := (jlookup kvs "error").getD .null
        if pyTruthy e then e
        else .str (pyRepr (.obj kvs))
  | _ =>
      if resp.text ≠ "" then .str resp.text
      else .str ("HTTP " ++ toString resp.status)

/-- Outcome of handling one response inside the loop: a returned dict, a
raised `APIError`, or the uncaught `ValueError` that
`RateLimitInfo.from_headers` raises on a present-but-unparseable
rate-limit header (nothing in `client.py` catches it). -/
inductive AttemptResult where
  | ok (v : Json)
  | raisedAPI (e : APIErr)
  | raisedValue

/-- Model of `_handle_response` including the first thing it does: call
`_handle_rate_limit`, which parses the rate-limit headers and lets a
`ValueError` from an unparseable header propagate (the sleeping side effect
itself is modelled separately by `sleepSeconds`).  After a successful
refresh: 429 raises the fixed rate-limit error, any other status ≥ 400
raises with the extracted message, 204 returns an empty dict, and otherwise
the parsed body (or `{"text": raw}` when decoding fails) is returned. -/
def handleResponse (resp : Response) : AttemptResult :=
  match RateLimitInfo.from_headers resp.headers with
  | .error _ => .raisedValue
  | .ok _ =>
      if resp.status = 429 then
        .raisedAPI ⟨429, .str rateLimitedMsg⟩
      else if resp.status ≥ 400 then
        .raisedAPI ⟨resp.status, extractMessage resp⟩
      else if resp.status = 204 then
        .ok (.obj [])
      else
        match resp.jsonBody with
        | some body => .ok body
        | none => .ok (.obj [("text", .str resp.text)])

/-- Whether a response's rate-limit headers parse, i.e. whether
`_handle_rate_limit` completes without raising `ValueError`. -/
def headersParse (resp : Response) : Bool :=
  match RateLimitInfo.from_headers resp.headers with
  | .ok _ => true
  | .error _ => false

/-- Outcome of `request()`: a returned dict, a raised `APIError`, the
propagated `ValueError` of an unparseable rate-limit header (`request()`
catches only `APIError`), or the implicit `return None` reached when the
`for attempt in range(max_retries)` loop body never runs (only possible
when the range is empty). -/
inductive ReqResult where
  | ok (v : Json)
  | raised (e : APIErr)
  | raisedValueError
  | retNone

/-- Coercion from one attempt's handling outcome to the loop outcome. -/
def toResult : AttemptResult → ReqResult
  | .ok v => .ok v
  | .raisedAPI e => .raised e
  | .raisedValue => .raisedValueError

/-- The retry loop of `request()`: `resps i` is the response the server
gives to attempt `i` (attempts are numbered from 0).  An `APIError` with
status 429 is swallowed and retried while `attempt < max_retries - 1`;
every other `APIError` propagates, and a `ValueError` from header parsing
is not caught at all. -/
def requestLoop (resps : Nat → Response) (maxRetries : Int) (attempt : Nat) : ReqResult :=
  if _h : (attempt : Int) < maxRetries then
    match handleResponse (resps attempt) with
    | .ok v => .ok v
    | .raisedValue => .raisedValueError
    | .raisedAPI e =>
        if h2 : e.statusCode = 429 ∧ ((attempt : Int) + 1) < maxRetries then
          requestLoop resps maxRetries (attempt + 1)
        else .raised e
  else .retNone
termination_by (maxRetries - attempt).toNat
decreasing_by
  omega

/-- Model of `request()` from the first attempt (params handling factored out into
`buildParams`). -/
def request (resps : Nat → Response) (maxRetries : Int) : ReqResult :=
  requestLoop resps maxRetries 0

/-! Embedding of `client.py`: query-parameter preparation in `request()` -/

/-- Truthiness of `self.location_id` (an optional string; the empty string
is falsy in Python). -/
def locTruthy : Option String → Bool
  | some s => s != ""
  | none => false

/-- The query dict a caller passes: keys with possibly-`None` values.  A
Python dict is modelled as an association list in insertion order. -/
abbrev Query : Type := List (String × Option Json)

/-- The params preparation at the top of `request()`: drop `None`-valued
keys (only attempted when the dict is truthy, i.e. nonempty), then inject
the configured `locationId` when one is set and the key is not already
present; a missing dict becomes `{"locationId": ...}` when a location is
configured. -/
def buildParams (locationId : Option String) (params : Option Query) : Option Query :=
  let params : Option Query :=
    match params with
    | some ps => if ps.isEmpty then some ps else some (ps.filter fun kv => kv.2.isSome)
    | none => none
  if locTruthy locationId then
    match params with
    | some ps =>
        if ps.any (fun kv => kv.1 == "locationId") then some ps
        else some (ps ++ [("locationId", (locationId.map Json.str))])
    | none => some [("locationId", (locationId.map Json.str))]
  else params

/-- Whether `response.json()` produced a dict (the only shape on which
`body.get(...)` does not raise). -/
def isObjBody : Option Json → Bool
  | some (.obj _) => true
  | _ => false

/-! Concrete fixtures used by witnesses and counterexamples -/

/-- Headers carrying no rate-limit information. -/
def noHeaders : Headers := fun _ => none

/-- A 204 No Content response that nevertheless carries a decodable body. -/
def resp204 : Response := ⟨204, noHeaders, some (.str "ignored"), "ignored"⟩

/-- A 429 response whose body carries a perfectly good `message` field. -/
def resp429msg : Response :=
  ⟨429, noHeaders, some (.obj [("message", .str "slow down")]),
   "\x7b\"message\": \"slow down\"\x7d"⟩

/-- A 400 response whose body is valid JSON but not a record: raw text
`"[1,2]"` decodes to the list `[1, 2]`. -/
def resp400list : Response := ⟨400, noHeaders, some (.arr [.num 1, .num 2]), "[1,2]"⟩

/-- A plain 429 response with an empty body. -/
def resp429plain : Response := ⟨429, noHeaders, none, ""⟩

/-- A 200 response with a one-field record body. -/
def resp200ok : Response := ⟨200, noHeaders, some (.obj [("id", .str "x1")]), "\x7b\"id\": \"x1\"\x7d"⟩

/-- A 500 response with a `message`-bearing body. -/
def resp500 : Response := ⟨500, noHeaders, some (.obj [("message", .str "boom")]), "\x7b\"message\": \"boom\"\x7d"⟩

/-- Headers whose rate-limit limit field is unparseable as an integer. -/
def badHeaders : Headers :=
  fun k => if k = "x-ratelimit-limit" then some "abc" else none

/-- Headers with a reset 12 s after the epoch and the default interval. -/
def resetHeaders : Headers :=
  fun k => if k = "x-ratelimit-reset" then some "12" else none

/-- A 429 response carrying `resetHeaders`. -/
def respReset : Response := ⟨429, resetHeaders, none, ""⟩

/-- The response stream used by the C1 witness: a 429 on the first attempt,
then a 500. -/
def mixedResps : Nat → Response := fun i => if i = 0 then resp429plain else resp500

/-! Helper lemmas -/

/-- The reset field produced by a successful `from_headers` is never a
stored zero: `float(...) or None` maps `0.0` to `None`, so a present reset
is truthy. -/
theorem from_headers_reset_ne_zero (h : Headers) (info : RateLimitInfo)
    (hok : RateLimitInfo.from_headers h = .ok info) :
    ∀ r, info.reset = some r → r ≠ 0 := by
  unfold RateLimitInfo.from_headers at hok
  split at hok
  · injection hok with hok
    subst hok
    intro r hr
    dsimp only at hr
    split at hr
    · cases hr
    · next h0 =>
        injection hr with hr
        subst hr
        exact h0
  · cases hok

/-- Success of `headersParse` exhibits the parsed rate-limit info. -/
theorem headersParse_ok (resp : Response) (hp : headersParse resp = true) :
    ∃ info, RateLimitInfo.from_headers resp.headers = .ok info := by
  unfold headersParse at hp
  cases hh : RateLimitInfo.from_headers resp.headers with
  | ok info => exact ⟨info, rfl⟩
  | error e =>
      rw [hh] at hp
      cases hp

/-- On a response whose rate-limit headers parse, `handleResponse` reduces
to the status dispatch of `_handle_response`. -/
theorem handleResponse_parsed (resp : Response) (hp : headersParse resp = true) :
    handleResponse resp =
      (if resp.status = 429 then .raisedAPI ⟨429, .str rateLimitedMsg⟩
       else if resp.status ≥ 400 then .raisedAPI ⟨resp.status, extractMessage resp⟩
       else if resp.status = 204 then .ok (.obj [])
       else match resp.jsonBody with
         | some body => AttemptResult.ok body
         | none => AttemptResult.ok (.obj [("text", .str resp.text)])) := by
  obtain ⟨info, hinfo⟩ := headersParse_ok resp hp
  unfold handleResponse
  rw [hinfo]

/-- On a response with an unparseable rate-limit header, `_handle_rate_limit`
raises `ValueError` before any status dispatch. -/
theorem handleResponse_notParsed (resp : Response) (hp : headersParse resp = false) :
    handleResponse resp = .raisedValue := by
  unfold headersParse at hp
  cases hh : RateLimitInfo.from_headers resp.headers with
  | ok info =>
      rw [hh] at hp
      cases hp
  | error e =>
      unfold handleResponse
      rw [hh]

/-! Theorems settling the claims -/

/-- C3: for every row record and dotted column path, a missing or non-record
intermediate resolves to the empty value and renders as `"-"` in table
format; but contrary to the claim, the CSV cell is also `"-"`, not the empty
string: `output_csv` compares the raw resolved value (here Python `None`)
against `"-"` before formatting, so the placeholder survives into the CSV
cell.  Evaluated at the failing inputs: row `{}` with path `"a.b"`, and row
`{"a": 5}` with path `"a.b.c"`. -/
theorem C3_missing_path_cells :
    tableCell (.obj []) "a.b" = "-"
  ∧ csvCell (.obj []) "a.b" = "-"
  ∧ tableCell (.obj [("a", .num 5)]) "a.b.c" = "-"
  ∧ csvCell (.obj [("a", .num 5)]) "a.b.c" = "-" :=
  ⟨rfl, rfl, rfl, rfl⟩

/-- C6 (counterexample): in CSV mode the shared formatting function is not
what is emitted for every scalar: a field whose raw value is the string
`"-"` renders as the empty string, while the shared function
`format_value` yields `"-"`. -/
theorem C6_csv_dash_counterexample :
    csvCell (.obj [("a", .str "-")]) "a" = ""
  ∧ format_value (.str "-") = "-"
  ∧ ("" : String) ≠ "-" := by
  refine ⟨rfl, rfl, by decide⟩

/-- C6 (amended): one shared pure function `format_value` produces `"-"`
for null, `"Yes"`/`"No"` for booleans, `"-"` for an empty list, the
comma-joined string form for 1–3 elements, `"<N> items"` for longer lists,
compact JSON for records and the natural string form otherwise; table and
single-record cells are exactly `format_value` of the resolved value, and
CSV cells are too except that a raw value equal to the string `"-"` is
replaced by the empty string. -/
theorem C6_shared_format_function :
    (format_value .null = "-")
  ∧ (format_value (.bool true) = "Yes" ∧ format_value (.bool false) = "No")
  ∧ (format_value (.arr []) = "-")
  ∧ (∀ xs : List Json, 1 ≤ xs.length → xs.length ≤ 3 →
       format_value (.arr xs) = String.intercalate ", " (xs.map pyStr))
  ∧ (∀ xs : List Json, 3 < xs.length →
       format_value (.arr xs) = toString xs.length ++ " items")
  ∧ (∀ kvs : List (String × Json), format_value (.obj kvs) = dumps (.obj kvs))
  ∧ (∀ n : Int, format_value (.num n) = toString n)
  ∧ (∀ s : String, format_value (.str s) = s)
  ∧ (∀ row key, tableCell row key = format_value (resolvePath row (splitKey key)))
  ∧ (∀ data key, singleValue data key = format_value (resolvePath data (splitKey key)))
  ∧ (∀ row key, csvCell row key =
       if eqDash (resolvePath row (splitKey key)) then ""
       else format_value (resolvePath row (splitKey key))) := by
  refine ⟨rfl, ⟨rfl, rfl⟩, rfl, ?_, ?_, fun _ => rfl, fun _ => rfl, fun _ => rfl,
    fun _ _ => rfl, fun _ _ => rfl, fun _ _ => rfl⟩
  · intro xs h1 h3
    simp only [format_value]
    rw [if_neg (by omega), if_pos h3]
  · intro xs h3
    simp only [format_value]
    rw [if_neg (by omega), if_neg (by omega)]

/-- C6 (witness): the list-of-four branch of the shared formatting rule at
a concrete input. -/
theorem C6_shared_format_function_witness :
    format_value (.arr [.num 1, .num 2, .num 3, .num 4]) = "4 items" :=
  (C6_shared_format_function.2.2.2.2.1 [.num 1, .num 2, .num 3, .num 4]
    (by decide)).trans rfl

/-- C7: a 204 response whose rate-limit headers parse (so that the
preceding `_handle_rate_limit` call completes instead of raising
`ValueError`) makes `request()` return the empty record, whatever the body
holds (the decodable body of the response never reaches the JSON
branch). -/
theorem C7_status_204_empty_record (resps : Nat → Response) (maxRetries : Int)
    (hmr : 1 ≤ maxRetries) (h204 : (resps 0).status = 204)
    (hp : headersParse (resps 0) = true) :
    request resps maxRetries = .ok (.obj []) := by
  unfold request requestLoop
  rw [dif_pos (by exact_mod_cast hmr)]
  have hhr : handleResponse (resps 0) = .ok (.obj []) := by
    rw [handleResponse_parsed (resps 0) hp, h204]
    norm_num
  rw [hhr]

/-- C7 (witness): a concrete 204 response, with no rate-limit headers (so
parsing succeeds with the defaults), whose body is the decodable string
`"ignored"`. -/
theorem C7_status_204_empty_record_witness :
    request (fun _ => resp204) 3 = .ok (.obj []) :=
  C7_status_204_empty_record (fun _ => resp204) 3 (by omega) rfl rfl

/-- C9: rendering the same value twice in `json` format yields
byte-identical output; `output_json` is a pure function of the value, with
key order and indentation fixed by the serialization. -/
theorem C9_json_render_deterministic : ∀ d : Json, output_json d = output_json d :=
  fun _ => rfl

/-- C10: with `max_retries ≤ 0` the loop `for attempt in range(max_retries)`
never runs, so `request()` falls through and returns Python `None`
(no attempt is made: the result ignores the response stream entirely). -/
theorem C10_nonpositive_retries_returns_none (resps : Nat → Response)
    (maxRetries : Int) (h : maxRetries ≤ 0) :
    request resps maxRetries = .retNone := by
  unfold request requestLoop
  rw [dif_neg (by omega)]

/-- C10 (witness): `max_retries = 0` on a stream of perfectly good 200
responses still produces `None`. -/
theorem C10_nonpositive_retries_returns_none_witness :
    request (fun _ => resp200ok) 0 = .retNone :=
  C10_nonpositive_retries_returns_none (fun _ => resp200ok) 0 (by omega)

/-- C2 (counterexample): the claimed message-precedence rule does not cover
every status ≥ 400.  A 429 whose body carries `{"message": "slow down"}`
raises the fixed message `"Rate limited. Please wait and try again."`, not
the body's `message` field; and a 400 whose body decodes to the non-record
`[1, 2]` (raw text `"[1,2]"`) raises the raw text, not the stringified
parsed body `"[1, 2]"` (`body.get` raises `AttributeError`, sending the
code into the raw-text arm). -/
theorem C2_precedence_counterexample :
    handleResponse resp429msg = .raisedAPI ⟨429, .str rateLimitedMsg⟩
  ∧ Json.str rateLimitedMsg ≠ .str "slow down"
  ∧ handleResponse resp400list = .raisedAPI ⟨400, .str "[1,2]"⟩
  ∧ pyRepr (.arr [.num 1, .num 2]) = "[1, 2]"
  ∧ ("[1,2]" : String) ≠ "[1, 2]" := by
  refine ⟨by rfl, ?_, by rfl, by rfl, by decide⟩
  intro hcontra
  injection hcontra with h1
  exact absurd h1 (by decide)

/-- C2 (amended): a response with an unparseable rate-limit header raises
an uncaught `ValueError` before any `APIError`.  Otherwise (headers parse),
for status ≥ 400 other than 429 the raised `APIError` carries the extracted
message, and the extraction obeys: when the body parses as a record, the
first Python-truthy of its `message` field, its `error` field, then the
stringified record; when the body is absent, undecodable, or not a record,
the raw response text when nonempty, else `"HTTP <code>"`.  A 429 whose
headers parse always raises the fixed rate-limit message. -/
theorem C2_message_precedence (resp : Response) (hge : 400 ≤ resp.status) :
    (headersParse resp = false → handleResponse resp = .raisedValue)
  ∧ (headersParse resp = true → resp.status = 429 →
      handleResponse resp = .raisedAPI ⟨429, .str rateLimitedMsg⟩)
  ∧ (headersParse resp = true → resp.status ≠ 429 →
      handleResponse resp = .raisedAPI ⟨resp.status, extractMessage resp⟩)
  ∧ (∀ kvs, resp.jsonBody = some (.obj kvs) →
      pyTruthy ((jlookup kvs "message").getD .null) = true →
      extractMessage resp = (jlookup kvs "message").getD .null)
  ∧ (∀ kvs, resp.jsonBody = some (.obj kvs) →
      pyTruthy ((jlookup kvs "message").getD .null) = false →
      pyTruthy ((jlookup kvs "error").getD .null) = true →
      extractMessage resp = (jlookup kvs "error").getD .null)
  ∧ (∀ kvs, resp.jsonBody = some (.obj kvs) →
      pyTruthy ((jlookup kvs "message").getD .null) = false →
      pyTruthy ((jlookup kvs "error").getD .null) = false →
      extractMessage resp = .str (pyRepr (.obj kvs)))
  ∧ (isObjBody resp.jsonBody = false → resp.text ≠ "" →
      extractMessage resp = .str resp.text)
  ∧ (isObjBody resp.jsonBody = false → resp.text = "" →
      extractMessage resp = .str ("HTTP " ++ toString resp.status)) := by
  refine ⟨?_, ?_, ?_, ?_, ?_, ?_, ?_, ?_⟩
  · intro hp
    exact handleResponse_notParsed resp hp
  · intro hp h429
    rw [handleResponse_parsed resp hp, if_pos h429]
  · intro hp hne
    rw [handleResponse_parsed resp hp, if_neg hne, if_pos hge]
  · intro kvs hbody hm
    unfold extractMessage
    rw [hbody]
    simp only [hm, if_true]
  · intro kvs hbody hm he
    unfold extractMessage
    rw [hbody]
    simp only [hm, he, if_true, if_false, Bool.false_eq_true]
  · intro kvs hbody hm he
    unfold extractMessage
    rw [hbody]
    simp only [hm, he, if_false, Bool.false_eq_true]
  · intro hnotobj htext
    unfold extractMessage
    unfold isObjBody at hnotobj
    match hb : resp.jsonBody with
    | none => simp only [if_pos htext]
    | some (.null) => simp only [if_pos htext]
    | some (.bool b) => simp only [if_pos htext]
    | some (.num n) => simp only [if_pos htext]
    | some (.str s) => simp only [if_pos htext]
    | some (.arr xs) => simp only [if_pos htext]
    | some (.obj kvs) => rw [hb] at hnotobj; cases hnotobj
  · intro hnotobj htext
    unfold extractMessage
    unfold isObjBody at hnotobj
    match hb : resp.jsonBody with
    | none => simp only [htext, ne_eq, not_true_eq_false, if_false]
    | some (.null) => simp only [htext, ne_eq, not_true_eq_false, if_false]
    | some (.bool b) => simp only [htext, ne_eq, not_true_eq_false, if_false]
    | some (.num n) => simp only [htext, ne_eq, not_true_eq_false, if_false]
    | some (.str s) => simp only [htext, ne_eq, not_true_eq_false, if_false]
    | some (.arr xs) => simp only [htext, ne_eq, not_true_eq_false, if_false]
    | some (.obj kvs) => rw [hb] at hnotobj; cases hnotobj

/-- C2 (witness): the amended precedence at a concrete 500 response whose
rate-limit headers are absent (so they parse to the defaults) and whose
body is `{"message": "boom"}`. -/
theorem C2_message_precedence_witness :
    handleResponse resp500 = .raisedAPI ⟨500, extractMessage resp500⟩
  ∧ extractMessage resp500 = .str "boom" := by
  refine ⟨(C2_message_precedence resp500 (by decide)).2.2.1 rfl (by decide), ?_⟩
  exact ((C2_message_precedence resp500 (by decide)).2.2.2.1
    [("message", .str "boom")] rfl rfl).trans rfl

/-- C8 (counterexample): a present but unparseable rate-limit header does
not fall back to the defaults — `int("abc")` raises `ValueError`, which
`from_headers` propagates, so deriving `RateLimitInfo` is not raise-free. -/
theorem C8_unparseable_header_raises :
    RateLimitInfo.from_headers badHeaders = .error ()
  ∧ (RateLimitInfo.from_headers badHeaders ≠
      .ok ⟨100, 100, none, 10000⟩) := by
  constructor
  · rfl
  · intro hcontra
    have : (Except.error () : Except Unit RateLimitInfo) = .ok ⟨100, 100, none, 10000⟩ := by
      rw [← hcontra]; rfl
    cases this

/-- C8 (amended): the rate-limit info is derived from each response's
headers; the defaults `limit=100, remaining=100, intervalMillis=10000,
reset=none` apply when the rate-limit headers are absent, while a present
but unparseable header raises instead of defaulting (here witnessed on the
limit header). -/
theorem C8_header_rule (h : Headers) :
    ((h "x-ratelimit-limit" = none ∧ h "x-ratelimit-remaining" = none ∧
      h "x-ratelimit-reset" = none ∧ h "x-ratelimit-interval-ms" = none) →
       RateLimitInfo.from_headers h = .ok ⟨100, 100, none, 10000⟩)
  ∧ (∀ s, h "x-ratelimit-limit" = some s → pyParseInt s = none →
       RateLimitInfo.from_headers h = .error ()) := by
  constructor
  · intro habs
    unfold RateLimitInfo.from_headers
    rw [habs.1, habs.2.1, habs.2.2.1, habs.2.2.2]
    rfl
  · intro s hs hbad
    unfold RateLimitInfo.from_headers
    rw [show parseIntHeader (h "x-ratelimit-limit") 100 = .error () from by
      rw [hs]; unfold parseIntHeader; dsimp only; rw [hbad]]

/-- C8 (witness): the amended rule at concrete header sets — no rate-limit
headers at all, and a limit header reading `"abc"`. -/
theorem C8_header_rule_witness :
    RateLimitInfo.from_headers noHeaders = .ok ⟨100, 100, none, 10000⟩
  ∧ RateLimitInfo.from_headers badHeaders = .error () :=
  ⟨(C8_header_rule noHeaders).1 ⟨rfl, rfl, rfl, rfl⟩,
   (C8_header_rule badHeaders).2 "abc" rfl rfl⟩

/-- C5: for every response whose rate-limit headers parse, the throttling
sleep is exactly: on 429, `max(intervalMillis/1000, reset - now)` when a
reset is present, else `intervalMillis/1000`, plus the fixed 0.1 s buffer;
on any other status a flat 0.5 s when `remaining < 5`; otherwise no sleep.
The hypothesis that the info came from `from_headers` supplies the
invariant that a present reset is nonzero, making the code's truthiness
test agree with the claim's presence test. -/
theorem C5_throttle_sleep (resp : Response) (info : RateLimitInfo) (now : ℚ)
    (hinfo : RateLimitInfo.from_headers resp.headers = .ok info) :
    sleepSeconds resp.status info now =
      (if resp.status = 429 then
        (match info.reset with
         | some r => max ((info.interval_ms : ℚ) / 1000) (r - now)
         | none => (info.interval_ms : ℚ) / 1000) + 1 / 10
      else if info.remaining < 5 then 1 / 2 else 0) := by
  unfold sleepSeconds
  by_cases h429 : resp.status = 429
  · rw [if_pos h429, if_pos h429]
    cases hres : info.reset with
    | none => rfl
    | some r =>
        have hne : r ≠ 0 := from_headers_reset_ne_zero resp.headers info hinfo r hres
        simp only [if_pos hne]
  · rw [if_neg h429, if_neg h429]

/-- C5 (witness): a 429 with `x-ratelimit-reset = 12` observed at
`now = 2` with the default interval sleeps
`max(10, 10) + 0.1 = 10.1` seconds. -/
theorem C5_throttle_sleep_witness :
    sleepSeconds respReset.status ⟨100, 100, some 12, 10000⟩ 2 = 101 / 10 := by
  rw [C5_throttle_sleep respReset ⟨100, 100, some 12, 10000⟩ 2 rfl]
  norm_num [respReset]

/-- A 429 response with parsing headers is turned into the fixed rate-limit
`APIError`. -/
theorem handleResponse_of_429 (resp : Response) (hp : headersParse resp = true)
    (h : resp.status = 429) :
    handleResponse resp = .raisedAPI ⟨429, .str rateLimitedMsg⟩ := by
  rw [handleResponse_parsed resp hp, if_pos h]

/-- The status carried by a raised `APIError` is always the response's
status (the 429 branch hard-codes 429, which is the response's status
there; an unparseable header never produces an `APIError`). -/
theorem handleResponse_error_status (resp : Response) (e : APIErr)
    (he : handleResponse resp = .raisedAPI e) : e.statusCode = resp.status := by
  unfold handleResponse at he
  split at he
  · cases he
  · split at he
    · next h429 =>
        injection he with he
        subst he
        exact h429.symm
    · split at he
      · injection he with he
        subst he
        rfl
      · split at he
        · cases he
        · split at he <;> cases he

/-- When every response from `attempt` on (within the budget) is a 429
with parsing rate-limit headers, the loop exhausts its budget and raises
the fixed rate-limit error; induction is over the remaining budget `n`. -/
theorem requestLoop_all_429 (resps : Nat → Response) (maxRetries : Int) :
    ∀ (n attempt : Nat), (maxRetries - attempt).toNat ≤ n →
      (attempt : Int) < maxRetries →
      (∀ i : Nat, attempt ≤ i → (i : Int) < maxRetries →
        (resps i).status = 429 ∧ headersParse (resps i) = true) →
      requestLoop resps maxRetries attempt = .raised ⟨429, .str rateLimitedMsg⟩ := by
  intro n
  induction n with
  | zero =>
      intro attempt hle hlt _
      omega
  | succ n ih =>
      intro attempt hle hlt hall
      rw [requestLoop, dif_pos hlt,
        handleResponse_of_429 (resps attempt) (hall attempt le_rfl hlt).2
          (hall attempt le_rfl hlt).1]
      dsimp only
      by_cases hnext : ((attempt : Int) + 1) < maxRetries
      · rw [dif_pos ⟨rfl, hnext⟩]
        exact ih (attempt + 1) (by omega) (by omega)
          (fun i hi hilt => hall i (by omega) hilt)
      · rw [dif_neg (fun hc => hnext hc.2)]

/-- When the response at the current attempt is not a 429, the loop stops
there: its outcome is exactly that attempt's handling result (this also
covers an unparseable-header attempt, whose `ValueError` is not caught). -/
theorem requestLoop_stop (resps : Nat → Response) (maxRetries : Int) (attempt : Nat)
    (hlt : (attempt : Int) < maxRetries) (hne : (resps attempt).status ≠ 429) :
    requestLoop resps maxRetries attempt = toResult (handleResponse (resps attempt)) := by
  rw [requestLoop, dif_pos hlt]
  cases hh : handleResponse (resps attempt) with
  | ok v => rfl
  | raisedValue => rfl
  | raisedAPI e =>
      have h1 : e.statusCode ≠ 429 := by
        rw [handleResponse_error_status (resps attempt) e hh]
        exact hne
      dsimp only
      rw [dif_neg (fun hc => h1 hc.1)]
      rfl

/-- When attempts `attempt, …, j-1` answer 429 with parsing headers and
attempt `j` does not answer 429 (all within the budget), the loop's
outcome is attempt `j`'s handling result; induction over `j - attempt`. -/
theorem requestLoop_first_non429 (resps : Nat → Response) (maxRetries : Int) :
    ∀ (n attempt j : Nat), j - attempt ≤ n → attempt ≤ j → (j : Int) < maxRetries →
      (∀ i : Nat, attempt ≤ i → i < j →
        (resps i).status = 429 ∧ headersParse (resps i) = true) →
      (resps j).status ≠ 429 →
      requestLoop resps maxRetries attempt = toResult (handleResponse (resps j)) := by
  intro n
  induction n with
  | zero =>
      intro attempt j hle haj hjlt hall hne
      have hje : attempt = j := by omega
      subst hje
      exact requestLoop_stop resps maxRetries attempt hjlt hne
  | succ n ih =>
      intro attempt j hle haj hjlt hall hne
      by_cases hje : attempt = j
      · subst hje
        exact requestLoop_stop resps maxRetries attempt hjlt hne
      · have hlt : (attempt : Int) < maxRetries := by omega
        rw [requestLoop, dif_pos hlt,
          handleResponse_of_429 (resps attempt) (hall attempt le_rfl (by omega)).2
            (hall attempt le_rfl (by omega)).1]
        dsimp only
        rw [dif_pos ⟨rfl, by omega⟩]
        exact ih (attempt + 1) j (by omega) (by omega) hjlt
          (fun i hi hij => hall i (by omega) hij) hne

/-- C1: across a whole response stream whose rate-limit headers parse (so
that `_handle_rate_limit` never raises `ValueError`), `request()` retries
only on 429: (i) when the first `maxRetries` responses are all 429, it
raises the fixed rate-limit error, and only after the final attempt;
(ii) the first non-429 response (within the budget, all earlier ones being
parsed 429s) decides the outcome — its handling result is returned or
raised immediately, no later response is consulted; (iii) in particular a
first non-429 response with status ≥ 400 and parsing headers raises that
status's `APIError` at once and is never retried. -/
theorem C1_retry_policy (resps : Nat → Response) (maxRetries : Int)
    (hmr : 1 ≤ maxRetries) :
    ((∀ i : Nat, (i : Int) < maxRetries →
        (resps i).status = 429 ∧ headersParse (resps i) = true) →
       request resps maxRetries = .raised ⟨429, .str rateLimitedMsg⟩)
  ∧ (∀ j : Nat, (j : Int) < maxRetries →
       (∀ i : Nat, i < j → (resps i).status = 429 ∧ headersParse (resps i) = true) →
       (resps j).status ≠ 429 →
       request resps maxRetries = toResult (handleResponse (resps j)))
  ∧ (∀ j : Nat, (j : Int) < maxRetries →
       (∀ i : Nat, i < j → (resps i).status = 429 ∧ headersParse (resps i) = true) →
       (resps j).status ≠ 429 → 400 ≤ (resps j).status →
       headersParse (resps j) = true →
       request resps maxRetries = .raised ⟨(resps j).status, extractMessage (resps j)⟩) := by
  refine ⟨?_, ?_, ?_⟩
  · intro hall
    exact requestLoop_all_429 resps maxRetries maxRetries.toNat 0 (by omega) (by omega)
      (fun i _ hilt => hall i hilt)
  · intro j hj hbefore hne
    exact requestLoop_first_non429 resps maxRetries j 0 j (by omega) (by omega) hj
      (fun i _ hij => hbefore i hij) hne
  · intro j hj hbefore hne hge hpj
    have h2 := requestLoop_first_non429 resps maxRetries j 0 j (by omega) (by omega) hj
      (fun i _ hij => hbefore i hij) hne
    have h3 : handleResponse (resps j) = .raisedAPI ⟨(resps j).status, extractMessage (resps j)⟩ := by
      rw [handleResponse_parsed (resps j) hpj, if_neg hne, if_pos hge]
    rw [h3] at h2
    exact h2

/-- C1 (witness): with a budget of 2, a 429 followed by a 500 gives the 500
`APIError` on the second attempt, and two straight 429s exhaust the budget
into the fixed rate-limit error. -/
theorem C1_retry_policy_witness :
    request mixedResps 2 = .raised ⟨500, .str "boom"⟩
  ∧ request (fun _ => resp429plain) 2 = .raised ⟨429, .str rateLimitedMsg⟩ := by
  constructor
  · have h := (C1_retry_policy mixedResps 2 (by omega)).2.2 1 (by omega)
      (fun i hi => by
        cases i with
        | zero => exact ⟨rfl, rfl⟩
        | succ k => omega)
      (by decide) (by decide) rfl
    exact h.trans (by rfl)
  · exact (C1_retry_policy (fun _ => resp429plain) 2 (by omega)).1 (fun i _ => ⟨rfl, rfl⟩)

/-! Theorems about query preparation -/

/-- Normal form of `buildParams`: the truthiness test before the `None`
filter is immaterial because filtering an empty dict is a no-op. -/
theorem buildParams_eq (locationId : Option String) (params : Option Query) :
    buildParams locationId params =
      (if locTruthy locationId then
        match params.map (fun ps => ps.filter fun kv => kv.2.isSome) with
        | some ps =>
            if ps.any (fun kv => kv.1 == "locationId") then some ps
            else some (ps ++ [("locationId", locationId.map Json.str)])
        | none => some [("locationId", locationId.map Json.str)]
      else params.map (fun ps => ps.filter fun kv => kv.2.isSome)) := by
  cases params with
  | none => rfl
  | some ps =>
      cases ps with
      | nil => rfl
      | cons kv rest => rfl

/-- A truthy configured location id yields a non-`None` injected value. -/
theorem locTruthy_mapIsSome (lid : Option String) (h : locTruthy lid = true) :
    (lid.map Json.str).isSome = true := by
  cases lid with
  | none => cases h
  | some s => rfl

/-- C4: the query preparation of `request()` drops every null-valued key
and only those; injects the configured `locationId` exactly when one is
configured (truthy) and the cleaned query does not already carry that key;
leaves the query untouched beyond cleaning when no location id is
configured; and fabricates `{"locationId": …}` when the query is absent. -/
theorem C4_params_cleaning (locationId : Option String) (params : Option Query) :
    (∀ qs, buildParams locationId params = some qs → ∀ kv ∈ qs, kv.2.isSome = true)
  ∧ (∀ ps, params = some ps → ∀ kv : String × Option Json, kv ∈ ps → kv.2.isSome = true →
       ∃ qs, buildParams locationId params = some qs ∧ kv ∈ qs)
  ∧ (locTruthy locationId = true → ∃ qs, buildParams locationId params = some qs ∧
       qs.any (fun kv => kv.1 == "locationId") = true)
  ∧ (locTruthy locationId = false →
       buildParams locationId params = params.map (fun ps => ps.filter fun kv => kv.2.isSome))
  ∧ (locTruthy locationId = true → ∀ ps, params = some ps →
       ((ps.filter fun kv => kv.2.isSome).any (fun kv => kv.1 == "locationId") = false →
         buildParams locationId params =
           some ((ps.filter fun kv => kv.2.isSome) ++ [("locationId", locationId.map Json.str)]))
     ∧ ((ps.filter fun kv => kv.2.isSome).any (fun kv => kv.1 == "locationId") = true →
         buildParams locationId params = some (ps.filter fun kv => kv.2.isSome)))
  ∧ (locTruthy locationId = true → params = none →
       buildParams locationId params = some [("locationId", locationId.map Json.str)]) := by
  refine ⟨?_, ?_, ?_, ?_, ?_, ?_⟩
  · intro qs hqs kv hkv
    rw [buildParams_eq] at hqs
    by_cases hl : locTruthy locationId = true
    · rw [if_pos hl] at hqs
      cases params with
      | none =>
          simp only [Option.map_none'] at hqs
          injection hqs with hqs
          subst hqs
          rcases List.mem_singleton.mp hkv with rfl
          exact locTruthy_mapIsSome locationId hl
      | some ps =>
          simp only [Option.map_some'] at hqs
          by_cases ha : (ps.filter fun kv => kv.2.isSome).any (fun kv => kv.1 == "locationId") = true
          · rw [if_pos ha] at hqs
            injection hqs with hqs
            subst hqs
            exact (List.mem_filter.mp hkv).2
          · rw [if_neg ha] at hqs
            injection hqs with hqs
            subst hqs
            rcases List.mem_append.mp hkv with hmem | hmem
            · exact (List.mem_filter.mp hmem).2
            · rcases List.mem_singleton.mp hmem with rfl
              exact locTruthy_mapIsSome locationId hl
    · rw [if_neg hl] at hqs
      cases params with
      | none => cases hqs
      | some ps =>
          simp only [Option.map_some'] at hqs
          injection hqs with hqs
          subst hqs
          exact (List.mem_filter.mp hkv).2
  · intro ps hps kv hkv hsome
    subst hps
    rw [buildParams_eq]
    by_cases hl : locTruthy locationId = true
    · rw [if_pos hl]
      simp only [Option.map_some']
      by_cases ha : (ps.filter fun kv => kv.2.isSome).any (fun kv => kv.1 == "locationId") = true
      · rw [if_pos ha]
        exact ⟨_, rfl, List.mem_filter.mpr ⟨hkv, hsome⟩⟩
      · rw [if_neg ha]
        exact ⟨_, rfl, List.mem_append.mpr (Or.inl (List.mem_filter.mpr ⟨hkv, hsome⟩))⟩
    · rw [if_neg hl]
      simp only [Option.map_some']
      exact ⟨_, rfl, List.mem_filter.mpr ⟨hkv, hsome⟩⟩
  · intro hl
    rw [buildParams_eq, if_pos hl]
    cases params with
    | none =>
        refine ⟨_, rfl, ?_⟩
        simp
    | some ps =>
        simp only [Option.map_some']
        by_cases ha : (ps.filter fun kv => kv.2.isSome).any (fun kv => kv.1 == "locationId") = true
        · rw [if_pos ha]
          exact ⟨_, rfl, ha⟩
        · rw [if_neg ha]
          refine ⟨_, rfl, ?_⟩
          simp
  · intro hl
    rw [buildParams_eq, if_neg (by rw [hl]; exact Bool.false_ne_true)]
  · intro hl ps hps
    subst hps
    constructor
    · intro ha
      rw [buildParams_eq, if_pos hl]
      simp only [Option.map_some']
      rw [if_neg (by rw [ha]; exact Bool.false_ne_true)]
    · intro ha
      rw [buildParams_eq, if_pos hl]
      simp only [Option.map_some']
      rw [if_pos ha]
  · intro hl hps
    subst hps
    rw [buildParams_eq, if_pos hl]
    rfl

/-- C4 (witness): with location `"L1"` configured and the query
`{"a": 1, "b": None}`, the sent query is `{"a": 1, "locationId": "L1"}`. -/
theorem C4_params_cleaning_witness :
    buildParams (some "L1") (some [("a", some (.num 1)), ("b", none)]) =
      some [("a", some (.num 1)), ("locationId", some (.str "L1"))] := by
  have h := (((C4_params_cleaning (some "L1")
      (some [("a", some (.num 1)), ("b", none)])).2.2.2.2.1 rfl
      [("a", some (.num 1)), ("b", none)] rfl).1 (by rfl))
  exact h.trans (by rfl)

end GHL
